import Mathlib

/-!
Shallow embedding of the "Ethereum Snake" game-loop engine from
`src/game.js` (duplicated in `main.js`) of the gratitude-wall repository.

The engine keeps its run state in closure variables; here it is a
`GameState` record and every operation is a state-transition function.
`performance.now()` timestamps are passed explicitly as an `Int` argument
(milliseconds).  The two sources of randomness (`Phaser.Math.Between`,
which is `Math.floor(Math.random() * (max - min + 1) + min)`, and
`Math.random()`) are modelled by threading an explicit stream of rational
numbers in `[0, 1)` that is consumed in call order.  Rendering (sprites,
colors, draw calls), icon fetching and DOM focus handling are outside the
engine per the specification's scope; the observer callbacks
`onGameOver(reason, score)` and `onWin(score)` are recorded in ghost
fields `gameOverReason`/`gameOverScore`/`winScore` so that termination
reasons and the reported final score are observable.
-/

namespace EthSnake

/-- A grid coordinate pair (also used for direction unit vectors),
from the `{ x, y }` object literals of `game.js`. -/
structure Pos where
  x : Int
  y : Int
deriving DecidableEq, Repr

/-- The five food kinds of `FOOD_TYPES` in `game.js`. -/
inductive FoodKind where
  | normal
  | shield
  | fraud
  | jam
  | drain
deriving DecidableEq, Repr

/-- Point value of each food kind, from the `value` fields of
`FOOD_TYPES` (the `color` fields are rendering-only). -/
def foodValue : FoodKind → Nat
  | .normal => 3
  | .shield => 8
  | .fraud => 10
  | .jam => 8
  | .drain => 6

/-- An entry of the `L2S` table: name, texture key, ledger id, and kind. -/
structure L2 where
  name : String
  key : String
  ledgerId : String
  type : FoodKind
deriving DecidableEq, Repr

/-- The `L2S` constant table of `game.js`. -/
def L2S : List L2 :=
  [ ⟨"Arbitrum", "arbitrum", "arbitrum", .fraud⟩,
    ⟨"Optimism", "optimism", "optimism", .jam⟩,
    ⟨"Base", "base", "base", .normal⟩,
    ⟨"zkSync", "zksync", "zksync", .shield⟩,
    ⟨"Starknet", "starknet", "starknet", .drain⟩,
    ⟨"Linea", "linea", "linea", .normal⟩,
    ⟨"Scroll", "scroll", "scroll", .shield⟩ ]

/-- `POWERED_TYPES` of `game.js`. -/
def POWERED_TYPES : List FoodKind := [.shield, .fraud, .jam, .drain]

def GRID_SIZE : Int := 20

def TARGET_SCORE : Nat := 100

def START_TIME : Int := 90

/-- An active food item (the `sprite` field is rendering-only and
omitted). -/
structure Food where
  x : Int
  y : Int
  name : String
  key : String
  type : FoodKind
  verified : Bool
deriving DecidableEq, Repr

/-- The closure-variable state of `createGame`, with ghost fields
recording the `onGameOver`/`onWin` callback payloads. -/
structure GameState where
  snake : List Pos
  direction : Pos
  nextDirection : Pos
  speed : Nat
  foods : List Food
  score : Nat
  timeLeft : Int
  isPaused : Bool
  isGameOver : Bool
  reverseUntil : Int
  stunUntil : Int
  poweredEatTimes : List Int
  lastL2 : String
  gameOverReason : Option String
  gameOverScore : Option Nat
  winScore : Option Nat
deriving DecidableEq, Repr

/-- `gameOver(reason)`: sets the terminal flag and fires
`onGameOver(reason, score)`, recorded in the ghost fields. -/
def gameOver (reason : String) (s : GameState) : GameState :=
  { s with isGameOver := true
           gameOverReason := some reason
           gameOverScore := some s.score }

/-- `winGame()`: sets the terminal flag and fires `onWin(score)`. -/
def winGame (s : GameState) : GameState :=
  { s with isGameOver := true
           winScore := some s.score }

/-- `pause()`. -/
def pause (s : GameState) : GameState := { s with isPaused := true }

/-- `resume()`. -/
def resume (s : GameState) : GameState := { s with isPaused := false }

/-- `togglePause()`: unconditionally flips the paused flag. -/
def togglePause (s : GameState) : GameState := { s with isPaused := !s.isPaused }

/-- `applyDirection(desired)` (exposed as `setDirection`): negates the
desired vector while jammed, then discards it when it is the exact
inverse of the committed direction, else queues it. -/
def applyDirection (now : Int) (desired : Pos) (s : GameState) : GameState :=
  let reverse := now < s.reverseUntil
  let next := if reverse then (⟨-desired.x, -desired.y⟩ : Pos) else desired
  if next.x + s.direction.x = 0 ∧ next.y + s.direction.y = 0 then s
  else { s with nextDirection := next }

/-- `adjustDifficulty()`: recomputes the movement interval from the
score (the `moveTimer.delay` update is the `speed` field itself). -/
def adjustDifficulty (s : GameState) : GameState :=
  { s with speed := if 70 ≤ s.score then 90 else if 40 ≤ s.score then 110 else 140 }

/-- The tail of `resolveEat` after the powered-window check:
kind-specific side effects, the win check, and difficulty adjustment
(`updateSecurityHud` only fires the `onSecurity` callback and changes
no run state). -/
def resolveEatEffects (now : Int) (food : Food) (s : GameState) : GameState :=
  let s := if food.type = FoodKind.shield then { s with stunUntil := now + 2000 } else s
  let s := if food.type = FoodKind.jam then { s with reverseUntil := now + 3000 } else s
  let s :=
    if food.type = FoodKind.drain then
      let loss := min 3 (s.snake.length - 2)
      { s with snake := s.snake.take (s.snake.length - loss) }
    else s
  if TARGET_SCORE ≤ s.score then winGame s
  else adjustDifficulty s

/-- `resolveEat(scene, food)`: unverified-fraud death, scoring,
powered-window collapse check (each `return gameOver(...)`
short-circuits the rest), then the kind effects and win check. -/
def resolveEat (now : Int) (food : Food) (s : GameState) : GameState :=
  if food.type = FoodKind.fraud ∧ food.verified = false then
    gameOver "A fraud-proof L2 was eaten before verification." s
  else
    let s := { s with score := s.score + foodValue food.type, lastL2 := food.name }
    if food.type ∈ POWERED_TYPES then
      let times := (s.poweredEatTimes ++ [now]).filter (fun t => now - t < 15000)
      let s := { s with poweredEatTimes := times }
      if 3 ≤ times.length then
        gameOver "Security collapse: too many powered L2s in a short window." s
      else
        resolveEatEffects now food s
    else
      resolveEatEffects now food s

/-- The per-food body of `verifyFraudProof`'s `forEach`: an unverified
fraud item at Manhattan distance exactly 1 from the head becomes
verified. -/
def verifyOne (head : Pos) (food : Food) : Food :=
  if food.type ≠ FoodKind.fraud ∨ food.verified then food
  else
    let dist := (food.x - head.x).natAbs + (food.y - head.y).natAbs
    if dist = 1 then { food with verified := true } else food

/-- `verifyFraudProof(head)`. -/
def verifyFraudProof (head : Pos) (s : GameState) : GameState :=
  { s with foods := s.foods.map (verifyOne head) }

/-- `isOccupied(pos)`. -/
def isOccupied (s : GameState) (pos : Pos) : Bool :=
  s.snake.any (fun seg => seg.x = pos.x ∧ seg.y = pos.y) ||
  s.foods.any (fun food => food.x = pos.x ∧ food.y = pos.y)

/-- `Math.floor(r * n)` for a random draw `r ∈ [0, 1)`: the uniform
index in `[0, n)` (also `Phaser.Math.Between 0 (n-1)`). -/
def randNat (r : ℚ) (n : Nat) : Nat := (⌊r * n⌋).toNat

/-- The pool `randomL2` draws from: all of `L2S` when the score-scaled
Bernoulli gate fires, else only its `normal` entries. -/
def l2Pool (score : Nat) (r1 : ℚ) : List L2 :=
  let powerChance : ℚ := min (1/5 + (score : ℚ) / 200) (3/5)
  if r1 < powerChance then L2S
  else L2S.filter (fun l2 => l2.type = FoodKind.normal)

/-- `randomL2()`, with `r1` the gate draw and `r2` the index draw. -/
def randomL2 (score : Nat) (r1 r2 : ℚ) : L2 :=
  let pool := l2Pool score r1
  pool.getD (randNat r2 pool.length) ⟨"", "", "", .normal⟩

/-- The `do { ... } while (isOccupied(spot) && tries < 200)` rejection
loop of `spawnFood`, consuming two draws per attempt; the fuel argument
is called with 200, matching the bound on `tries`. -/
def spawnLoop (s : GameState) : List ℚ → Nat → Nat → Pos × Nat × List ℚ
  | rng, tries, 0 => (⟨0, 0⟩, tries, rng)
  | rng, tries, fuel + 1 =>
    let rx := rng.headD 0
    let ry := (rng.drop 1).headD 0
    let rest := rng.drop 2
    let spot : Pos := ⟨(randNat rx 20 : Nat), (randNat ry 20 : Nat)⟩
    let tries := tries + 1
    if isOccupied s spot ∧ tries < 200 then spawnLoop s rest tries fuel
    else (spot, tries, rest)

/-- `spawnFood(scene)`: respects the 5-item cap, rejection-samples a
free cell (giving up after 200 tries, even when the 200th try found a
free cell), then appends a food of a random kind. -/
def spawnFood (s : GameState) (rng : List ℚ) : GameState × List ℚ :=
  if 5 ≤ s.foods.length then (s, rng)
  else
    let res := spawnLoop s rng 0 200
    let spot := res.1
    let tries := res.2.1
    let rng := res.2.2
    if 200 ≤ tries then (s, rng)
    else
      let r1 := rng.headD 0
      let r2 := (rng.drop 1).headD 0
      let rng := rng.drop 2
      let l2 := randomL2 s.score r1 r2
      ({ s with foods := s.foods ++
          [{ x := spot.x, y := spot.y, name := l2.name, key := l2.key,
             type := l2.type, verified := false }] }, rng)

/-- `step(scene)`: one movement tick. -/
def step (now : Int) (rng : List ℚ) (s : GameState) : GameState × List ℚ :=
  if s.isPaused ∨ s.isGameOver then (s, rng)
  else if now < s.stunUntil then (s, rng)
  else if s.snake.length = 0 then (s, rng)
  else
    let s := { s with direction := s.nextDirection }
    let head := s.snake.headD ⟨0, 0⟩
    let newHead : Pos := ⟨head.x + s.direction.x, head.y + s.direction.y⟩
    if newHead.x < 0 ∨ GRID_SIZE ≤ newHead.x ∨ newHead.y < 0 ∨ GRID_SIZE ≤ newHead.y then
      (gameOver "Hit the wall." s, rng)
    else if s.snake.any (fun seg => seg.x = newHead.x ∧ seg.y = newHead.y) then
      (gameOver "Hit yourself." s, rng)
    else
      let s := { s with snake := newHead :: s.snake }
      match s.foods.find? (fun food => food.x = newHead.x ∧ food.y = newHead.y) with
      | some food =>
        let i := s.foods.findIdx (fun food => food.x = newHead.x ∧ food.y = newHead.y)
        let s := resolveEat now food s
        let s := { s with foods := s.foods.eraseIdx i }
        let res := spawnFood s rng
        (verifyFraudProof newHead res.1, res.2)
      | none =>
        let s := { s with snake := s.snake.dropLast }
        (verifyFraudProof newHead s, rng)

/-- `tickTimer()`: the 1000 ms wall-clock tick. -/
def tickTimer (s : GameState) : GameState :=
  if s.isPaused ∨ s.isGameOver then s
  else
    let s := { s with timeLeft := s.timeLeft - 1 }
    if s.timeLeft ≤ 0 then gameOver "Time ran out." s
    else s

/-- Runs `spawnFood` `n` times (the `for` loop at the end of
`start()`). -/
def spawnN : Nat → GameState → List ℚ → GameState × List ℚ
  | 0, s, rng => (s, rng)
  | n + 1, s, rng =>
    let res := spawnFood s rng
    spawnN n res.1 res.2

/-- `start()`: resets every run field and spawns 4 initial foods (the
ghost callback fields are cleared: no termination has been reported for
the new run). -/
def start (s : GameState) (rng : List ℚ) : GameState × List ℚ :=
  let s := { s with
    snake := [⟨8, 10⟩, ⟨7, 10⟩, ⟨6, 10⟩]
    direction := (⟨1, 0⟩ : Pos)
    nextDirection := (⟨1, 0⟩ : Pos)
    score := 0
    timeLeft := START_TIME
    speed := 140
    isPaused := false
    isGameOver := false
    reverseUntil := 0
    stunUntil := 0
    poweredEatTimes := []
    lastL2 := "—"
    foods := []
    gameOverReason := none
    gameOverScore := none
    winScore := none }
  spawnN 4 s rng


/-- A concrete live state matching the position right after `start()`
(with no foods), used by the concrete witnesses below. -/
def base : GameState :=
  { snake := [⟨8, 10⟩, ⟨7, 10⟩, ⟨6, 10⟩]
    direction := ⟨1, 0⟩
    nextDirection := ⟨1, 0⟩
    speed := 140
    foods := []
    score := 0
    timeLeft := 90
    isPaused := false
    isGameOver := false
    reverseUntil := 0
    stunUntil := 0
    poweredEatTimes := []
    lastL2 := "—"
    gameOverReason := none
    gameOverScore := none
    winScore := none }

/-- The cell the head moves into on the next tick: head plus the
committed pending direction (the `newHead` local of `step`). -/
def newHeadOf (s : GameState) : Pos :=
  ⟨(s.snake.headD ⟨0, 0⟩).x + s.nextDirection.x,
   (s.snake.headD ⟨0, 0⟩).y + s.nextDirection.y⟩

/-- The run state immediately after `resolveEat` inside an eating tick:
the direction is committed and the new head prepended (the growth
position), before the eaten food is removed. -/
def eatState (now : Int) (s : GameState) (food : Food) : GameState :=
  resolveEat now food
    { s with direction := s.nextDirection, snake := newHeadOf s :: s.snake }

/-- The state and stream after the eaten food is removed and the
replacement spawn has been attempted, still inside the same tick. -/
def postEatState (now : Int) (rng : List ℚ) (s : GameState) (food : Food) :
    GameState × List ℚ :=
  spawnFood
    { eatState now s food with
      foods := (eatState now s food).foods.eraseIdx
        (s.foods.findIdx (fun f => f.x = (newHeadOf s).x ∧ f.y = (newHeadOf s).y)) }
    rng

/-- The state reached by `resolveEat` in the C10 witness tick: the
start position grown onto the unverified fraud item at (9, 10), with
the fraud game-over recorded at score 0. -/
def c10WitnessEatState : GameState :=
  { snake := [⟨9, 10⟩, ⟨8, 10⟩, ⟨7, 10⟩, ⟨6, 10⟩]
    direction := ⟨1, 0⟩
    nextDirection := ⟨1, 0⟩
    speed := 140
    foods := [⟨9, 10, "Arbitrum", "arbitrum", FoodKind.fraud, false⟩]
    score := 0
    timeLeft := 90
    isPaused := false
    isGameOver := true
    reverseUntil := 0
    stunUntil := 0
    poweredEatTimes := []
    lastL2 := "—"
    gameOverReason := some "A fraud-proof L2 was eaten before verification."
    gameOverScore := some 0
    winScore := none }

/-- C2: eating an unverified fraud item terminates the run with exactly
the fraud reason, reporting the pre-eat score, and changes nothing else:
no points are added and no powered-window push, stun, jam, drain, win
check or speed recompute happens. -/
theorem c2_unverified_fraud_fatal (now : Int) (food : Food) (s : GameState)
    (hty : food.type = FoodKind.fraud) (hv : food.verified = false) :
    resolveEat now food s =
      { s with isGameOver := true
               gameOverReason := some "A fraud-proof L2 was eaten before verification."
               gameOverScore := some s.score } := by
  simp [resolveEat, gameOver, hty, hv]

/-- Witness for C2 at a concrete state: the fraud item at the head's
target cell kills the run with score 0 reported. -/
theorem c2_unverified_fraud_fatal_witness :
    resolveEat 0 ⟨9, 10, "Arbitrum", "arbitrum", FoodKind.fraud, false⟩ base =
      { base with isGameOver := true
                  gameOverReason := some "A fraud-proof L2 was eaten before verification."
                  gameOverScore := some 0 } :=
  c2_unverified_fraud_fatal 0 ⟨9, 10, "Arbitrum", "arbitrum", FoodKind.fraud, false⟩ base rfl rfl


/-- C8 counterexample: in an ended, unpaused state, `togglePause()` is
not a no-op — it flips the paused flag. -/
theorem c8_togglePause_counterexample :
    (togglePause { base with isGameOver := true }).isPaused = true ∧
    ({ base with isGameOver := true } : GameState).isPaused = false := by
  constructor <;> rfl

/-- C8 (amended): `togglePause()` always flips the paused flag, also
once the run has ended, and leaves every other engine field unchanged
(the flip is inert for gameplay only because `ended` already suspends
both tick handlers). -/
theorem c8_togglePause_flips (s : GameState) :
    (togglePause s).isPaused = !s.isPaused ∧
    (togglePause s).snake = s.snake ∧
    (togglePause s).direction = s.direction ∧
    (togglePause s).nextDirection = s.nextDirection ∧
    (togglePause s).speed = s.speed ∧
    (togglePause s).foods = s.foods ∧
    (togglePause s).score = s.score ∧
    (togglePause s).timeLeft = s.timeLeft ∧
    (togglePause s).isGameOver = s.isGameOver ∧
    (togglePause s).reverseUntil = s.reverseUntil ∧
    (togglePause s).stunUntil = s.stunUntil ∧
    (togglePause s).poweredEatTimes = s.poweredEatTimes ∧
    (togglePause s).lastL2 = s.lastL2 ∧
    (togglePause s).gameOverReason = s.gameOverReason ∧
    (togglePause s).gameOverScore = s.gameOverScore ∧
    (togglePause s).winScore = s.winScore := by
  simp [togglePause]

/-- C6: a directional input is negated while jammed
(`now < reverseUntil`); the resulting vector is discarded exactly when
it is the exact inverse of the committed direction (state unchanged),
and otherwise becomes `pendingDirection`; in particular a jammed `left`
input with current direction `right` is applied as `right`. -/
theorem c6_applyDirection_spec (now : Int) (s : GameState) (desired : Pos) :
    ((if now < s.reverseUntil then (⟨-desired.x, -desired.y⟩ : Pos) else desired).x
        + s.direction.x = 0 ∧
     (if now < s.reverseUntil then (⟨-desired.x, -desired.y⟩ : Pos) else desired).y
        + s.direction.y = 0 →
       applyDirection now desired s = s) ∧
    (¬ ((if now < s.reverseUntil then (⟨-desired.x, -desired.y⟩ : Pos) else desired).x
          + s.direction.x = 0 ∧
        (if now < s.reverseUntil then (⟨-desired.x, -desired.y⟩ : Pos) else desired).y
          + s.direction.y = 0) →
       (applyDirection now desired s).nextDirection =
         (if now < s.reverseUntil then (⟨-desired.x, -desired.y⟩ : Pos) else desired)) ∧
    (now < s.reverseUntil → s.direction = ⟨1, 0⟩ →
       (applyDirection now (⟨-1, 0⟩ : Pos) s).nextDirection = ⟨1, 0⟩) := by
  refine ⟨fun h => ?_, fun h => ?_, fun hj hd => ?_⟩
  · simp only [applyDirection]
    rw [if_pos h]
  · simp only [applyDirection]
    rw [if_neg h]
  · simp only [applyDirection, hd]
    rw [if_pos hj]
    norm_num

/-- Witness for C6: with the jam window open (`now = 0 < reverseUntil =
100`) and current direction `right`, a `left` input is applied as
`right`; the same input with the window closed is discarded. -/
theorem c6_applyDirection_spec_witness :
    (applyDirection 0 (⟨-1, 0⟩ : Pos) { base with reverseUntil := 100 }).nextDirection
      = (⟨1, 0⟩ : Pos) ∧
    applyDirection 0 (⟨-1, 0⟩ : Pos) base = base :=
  ⟨(c6_applyDirection_spec 0 { base with reverseUntil := 100 } ⟨-1, 0⟩).2.2
      (by decide) rfl,
   (c6_applyDirection_spec 0 base (⟨-1, 0⟩ : Pos)).1 (by decide)⟩


/-- C9 counterexample: with the gate open (score 0, draw `r1 = 0 <
1/5`), the pool is all 7 entries of `L2S`, and uniform selection over
those entries gives kind `normal` two of the seven indices but kind
`fraud` only one, so the induced kind distribution is not uniform over
the five kinds: index draws `2/7` and `5/7` land on two distinct
`normal`-kind entries while only draw `0` lands on the `fraud` one. -/
theorem c9_counterexample :
    l2Pool 0 0 = L2S ∧ L2S.length = 7 ∧
    ((List.range 7).filter
        (fun j => (L2S.getD j ⟨"", "", "", .normal⟩).type = FoodKind.normal)).length = 2 ∧
    ((List.range 7).filter
        (fun j => (L2S.getD j ⟨"", "", "", .normal⟩).type = FoodKind.fraud)).length = 1 ∧
    randomL2 0 0 (2/7) ≠ randomL2 0 0 (5/7) ∧
    (randomL2 0 0 (2/7)).type = FoodKind.normal ∧
    (randomL2 0 0 (5/7)).type = FoodKind.normal ∧
    (randomL2 0 0 0).type = FoodKind.fraud := by
  have hpool : l2Pool 0 0 = L2S := by
    simp only [l2Pool]
    rw [if_pos (by norm_num)]
  have h2 : randNat (2/7) 7 = 2 := by
    rw [randNat]
    rw [show ((2 : ℚ)/7 * ((7 : Nat) : ℚ)) = ((2 : Int) : ℚ) by push_cast; ring]
    rw [Int.floor_intCast]
    rfl
  have h5 : randNat (5/7) 7 = 5 := by
    rw [randNat]
    rw [show ((5 : ℚ)/7 * ((7 : Nat) : ℚ)) = ((5 : Int) : ℚ) by push_cast; ring]
    rw [Int.floor_intCast]
    rfl
  have h00 : randNat 0 7 = 0 := by
    rw [randNat]
    norm_num
  have e1 : randomL2 0 0 (2/7) = L2S.getD 2 ⟨"", "", "", .normal⟩ := by
    simp only [randomL2]
    rw [hpool]
    show L2S.getD (randNat (2/7) 7) ⟨"", "", "", .normal⟩ = L2S.getD 2 ⟨"", "", "", .normal⟩
    rw [h2]
  have e2 : randomL2 0 0 (5/7) = L2S.getD 5 ⟨"", "", "", .normal⟩ := by
    simp only [randomL2]
    rw [hpool]
    show L2S.getD (randNat (5/7) 7) ⟨"", "", "", .normal⟩ = L2S.getD 5 ⟨"", "", "", .normal⟩
    rw [h5]
  have e0 : randomL2 0 0 0 = L2S.getD 0 ⟨"", "", "", .normal⟩ := by
    simp only [randomL2]
    rw [hpool]
    show L2S.getD (randNat 0 7) ⟨"", "", "", .normal⟩ = L2S.getD 0 ⟨"", "", "", .normal⟩
    rw [h00]
  refine ⟨hpool, rfl, by decide, by decide, ?_, ?_, ?_, ?_⟩
  · rw [e1, e2]
    decide
  · rw [e1]
    rfl
  · rw [e2]
    rfl
  · rw [e0]
    rfl

/-- C9 (amended): the kind is chosen by a Bernoulli gate with success
threshold `min (0.2 + score/200) 0.6` on the draw `r1`; when the gate
fires the pool is the full 7-entry `L2S` table and the second draw
selects a valid index among those 7 entries (kinds weighted by their
entry counts, so `normal` and `shield` twice each); when it does not
fire the pool is the two `normal` entries, so the kind is `normal` with
probability 1. -/
theorem c9_kind_gate (score : Nat) (r1 r2 : ℚ) (h0 : 0 ≤ r2) (h1 : r2 < 1) :
    (r1 < min (1/5 + (score : ℚ) / 200) (3/5) →
       l2Pool score r1 = L2S ∧ randNat r2 (l2Pool score r1).length < 7) ∧
    (¬ r1 < min (1/5 + (score : ℚ) / 200) (3/5) →
       l2Pool score r1 =
         [⟨"Base", "base", "base", .normal⟩, ⟨"Linea", "linea", "linea", .normal⟩] ∧
       (randomL2 score r1 r2).type = FoodKind.normal) := by
  constructor
  · intro hgate
    have hpool : l2Pool score r1 = L2S := by
      simp only [l2Pool]
      rw [if_pos hgate]
    refine ⟨hpool, ?_⟩
    rw [hpool]
    show randNat r2 7 < 7
    have hmul : r2 * ((7 : Nat) : ℚ) < ((7 : Int) : ℚ) := by push_cast; nlinarith
    have hfl : ⌊r2 * ((7 : Nat) : ℚ)⌋ < (7 : Int) := Int.floor_lt.mpr hmul
    simp only [randNat]
    omega
  · intro hgate
    have hpool : l2Pool score r1 =
        [⟨"Base", "base", "base", .normal⟩, ⟨"Linea", "linea", "linea", .normal⟩] := by
      simp only [l2Pool]
      rw [if_neg hgate]
      rfl
    refine ⟨hpool, ?_⟩
    have hall : ∀ j : Nat,
        ((([⟨"Base", "base", "base", .normal⟩,
            ⟨"Linea", "linea", "linea", .normal⟩] : List L2)).getD j
          ⟨"", "", "", .normal⟩).type = FoodKind.normal := by
      intro j
      match j with
      | 0 => rfl
      | 1 => rfl
      | n + 2 => rfl
    simp only [randomL2, hpool]
    exact hall _

/-- Witness for C9 (amended) at `score = 0`, `r1 = 1/2` (gate closed
since `1/2 ≥ 1/5`), `r2 = 1/2`: the drawn kind is `normal`. -/
theorem c9_kind_gate_witness : (randomL2 0 (1/2) (1/2)).type = FoodKind.normal :=
  ((c9_kind_gate 0 (1/2) (1/2) (by norm_num) (by norm_num)).2 (by norm_num)).2


/-- C1: on a live, unpaused, unstunned movement tick whose snake cells
all lie on the grid, if the new head (head plus the committed pending
direction) coincides with any cell of the pre-movement snake body —
the tail included — the run ends with reason "Hit yourself.", the
pre-collision score is reported, and the check precedes growth: snake,
score and foods are left exactly as they were. -/
theorem c1_self_collision (now : Int) (rng : List ℚ) (s : GameState)
    (hp : s.isPaused = false) (hg : s.isGameOver = false)
    (hstun : s.stunUntil ≤ now)
    (hne : s.snake ≠ [])
    (hbounds : ∀ seg ∈ s.snake,
      0 ≤ seg.x ∧ seg.x < GRID_SIZE ∧ 0 ≤ seg.y ∧ seg.y < GRID_SIZE)
    (hcol : ∃ seg ∈ s.snake,
      seg.x = (s.snake.headD ⟨0, 0⟩).x + s.nextDirection.x ∧
      seg.y = (s.snake.headD ⟨0, 0⟩).y + s.nextDirection.y) :
    (step now rng s).1.gameOverReason = some "Hit yourself." ∧
    (step now rng s).1.isGameOver = true ∧
    (step now rng s).1.gameOverScore = some s.score ∧
    (step now rng s).1.snake = s.snake ∧
    (step now rng s).1.score = s.score ∧
    (step now rng s).1.foods = s.foods := by
  obtain ⟨seg, hmem, hx, hy⟩ := hcol
  have hb := hbounds seg hmem
  have hstep : step now rng s =
      (gameOver "Hit yourself." { s with direction := s.nextDirection }, rng) := by
    rw [step]
    rw [if_neg (by simp [hp, hg])]
    rw [if_neg (not_lt.mpr hstun)]
    rw [if_neg (by simp [List.length_eq_zero, hne])]
    simp only
    rw [if_neg (by push_neg; omega)]
    rw [if_pos]
    exact List.any_eq_true.mpr ⟨seg, hmem, by simp [hx, hy]⟩
  rw [hstep]
  simp [gameOver]

/-- Witness for C1: from the start position with the pending direction
reversed to `left`, the new head (7, 10) is the second snake cell; the
tick ends the run with "Hit yourself.", score 0 reported, and the snake
still holds its 3 pre-movement cells. -/
theorem c1_self_collision_witness :
    (step 0 [] { base with nextDirection := ⟨-1, 0⟩ }).1.gameOverReason
        = some "Hit yourself." ∧
    (step 0 [] { base with nextDirection := ⟨-1, 0⟩ }).1.isGameOver = true ∧
    (step 0 [] { base with nextDirection := ⟨-1, 0⟩ }).1.gameOverScore = some 0 ∧
    (step 0 [] { base with nextDirection := ⟨-1, 0⟩ }).1.snake
        = [⟨8, 10⟩, ⟨7, 10⟩, ⟨6, 10⟩] ∧
    (step 0 [] { base with nextDirection := ⟨-1, 0⟩ }).1.score = 0 ∧
    (step 0 [] { base with nextDirection := ⟨-1, 0⟩ }).1.foods = [] :=
  c1_self_collision 0 [] { base with nextDirection := ⟨-1, 0⟩ }
    rfl rfl (by simp [base]) (by simp [base])
    (by intro seg hseg; fin_cases hseg <;> simp [GRID_SIZE])
    ⟨⟨7, 10⟩, by simp [base], by simp [base], by simp [base]⟩


/-- Helper: kind-specific side effects never change the score. -/
theorem resolveEatEffects_score (now : Int) (food : Food) (s : GameState) :
    (resolveEatEffects now food s).score = s.score := by
  by_cases hw : TARGET_SCORE ≤ s.score <;>
    cases htype : food.type <;>
      simp [resolveEatEffects, htype, winGame, adjustDifficulty, hw]

/-- Helper: kind-specific side effects change neither the food set, the
powered window, the game-over report, nor the last-eaten label. -/
theorem resolveEatEffects_frame (now : Int) (food : Food) (s : GameState) :
    (resolveEatEffects now food s).foods = s.foods ∧
    (resolveEatEffects now food s).poweredEatTimes = s.poweredEatTimes ∧
    (resolveEatEffects now food s).gameOverReason = s.gameOverReason ∧
    (resolveEatEffects now food s).gameOverScore = s.gameOverScore ∧
    (resolveEatEffects now food s).lastL2 = s.lastL2 := by
  by_cases hw : TARGET_SCORE ≤ s.score <;>
    cases htype : food.type <;>
      simp [resolveEatEffects, htype, winGame, adjustDifficulty, hw]

/-- Helper: when the post-eat score has reached the target, the effects
phase ends the run as a win reporting exactly that score. -/
theorem resolveEatEffects_win (now : Int) (food : Food) (s : GameState)
    (h : TARGET_SCORE ≤ s.score) :
    (resolveEatEffects now food s).isGameOver = true ∧
    (resolveEatEffects now food s).winScore = some s.score := by
  cases htype : food.type <;>
    simp [resolveEatEffects, htype, winGame, adjustDifficulty, h]

/-- Helper: below the target score the effects phase does not end the
run and fires no win callback. -/
theorem resolveEatEffects_nowin (now : Int) (food : Food) (s : GameState)
    (h : ¬ TARGET_SCORE ≤ s.score) :
    (resolveEatEffects now food s).isGameOver = s.isGameOver ∧
    (resolveEatEffects now food s).winScore = s.winScore := by
  cases htype : food.type <;>
    simp [resolveEatEffects, htype, winGame, adjustDifficulty, h]

/-- Helper: only a drain item touches the snake in the effects phase. -/
theorem resolveEatEffects_snake (now : Int) (food : Food) (s : GameState)
    (h : food.type ≠ FoodKind.drain) :
    (resolveEatEffects now food s).snake = s.snake := by
  by_cases hw : TARGET_SCORE ≤ s.score <;>
    cases htype : food.type <;>
      first
        | exact absurd htype h
        | simp [resolveEatEffects, htype, winGame, adjustDifficulty, hw]

/-- Helper: a drain item truncates the snake by `min 3 (length - 2)`
tail cells. -/
theorem resolveEatEffects_snake_drain (now : Int) (food : Food) (s : GameState)
    (h : food.type = FoodKind.drain) :
    (resolveEatEffects now food s).snake =
      s.snake.take (s.snake.length - min 3 (s.snake.length - 2)) := by
  by_cases hw : TARGET_SCORE ≤ s.score <;>
    simp [resolveEatEffects, h, winGame, adjustDifficulty, hw]

/-- C4: after a movement tick's eating phase the remaining foods are
rescanned (`verifyFraudProof`), and an unverified fraud item becomes
verified exactly when its Manhattan distance to the new head is 1 —
distance 0 or at least 2 leaves it unverified; and eating a fraud item
once verified never ends the run with the fraud reason and adds exactly
10 points. -/
theorem c4_fraud_verification (head : Pos) (s : GameState) (food : Food)
    (hty : food.type = FoodKind.fraud) (hnv : food.verified = false) :
    (verifyFraudProof head s).foods = s.foods.map (verifyOne head) ∧
    (verifyOne head food).verified =
      decide ((food.x - head.x).natAbs + (food.y - head.y).natAbs = 1) ∧
    (∀ (now : Int) (eaten : Food) (s2 : GameState),
       eaten.type = FoodKind.fraud → eaten.verified = true →
       s2.gameOverReason = none →
       (resolveEat now eaten s2).score = s2.score + 10 ∧
       (resolveEat now eaten s2).gameOverReason ≠
         some "A fraud-proof L2 was eaten before verification.") := by
  refine ⟨rfl, ?_, ?_⟩
  · rw [verifyOne]
    rw [if_neg (by simp [hty, hnv])]
    by_cases hd : (food.x - head.x).natAbs + (food.y - head.y).natAbs = 1
    · simp [hd]
    · simp [hd, hnv]
  · intro now eaten s2 hety hev hnone
    rw [resolveEat]
    rw [if_neg (by simp [hety, hev])]
    simp only [hety]
    rw [if_pos (show FoodKind.fraud ∈ POWERED_TYPES by simp [POWERED_TYPES])]
    set w := ((s2.poweredEatTimes ++ [now]).filter fun t => now - t < 15000) with hw
    by_cases h3 : 3 ≤ w.length
    · rw [if_pos h3]
      refine ⟨rfl, ?_⟩
      simp only [gameOver]
      intro hcontra
      have := Option.some.inj hcontra
      exact absurd this (by decide)
    · rw [if_neg h3]
      refine ⟨?_, ?_⟩
      · rw [resolveEatEffects_score]
        rfl
      · rw [(resolveEatEffects_frame now eaten _).2.2.1]
        simp [hnone]

/-- Witness for C4: head at (8, 10) with an unverified fraud item at
(9, 10) (distance 1): the scan marks it verified; a later eat of the
verified item adds 10 points to the start state and sets no fraud
game-over reason. -/
theorem c4_fraud_verification_witness :
    (verifyOne ⟨8, 10⟩ ⟨9, 10, "Arbitrum", "arbitrum", FoodKind.fraud, false⟩).verified
      = true ∧
    (resolveEat 0 ⟨9, 10, "Arbitrum", "arbitrum", FoodKind.fraud, true⟩ base).score
      = 10 ∧
    (resolveEat 0 ⟨9, 10, "Arbitrum", "arbitrum", FoodKind.fraud, true⟩ base).gameOverReason
      ≠ some "A fraud-proof L2 was eaten before verification." := by
  have h := c4_fraud_verification ⟨8, 10⟩ base
      ⟨9, 10, "Arbitrum", "arbitrum", FoodKind.fraud, false⟩ rfl rfl
  refine ⟨?_, ?_, ?_⟩
  · rw [h.2.1]
    decide
  · exact (h.2.2 0 ⟨9, 10, "Arbitrum", "arbitrum", FoodKind.fraud, true⟩ base rfl rfl rfl).1
  · exact (h.2.2 0 ⟨9, 10, "Arbitrum", "arbitrum", FoodKind.fraud, true⟩ base rfl rfl rfl).2


/-- C3: on eating a powered item (not an unverified fraud), the current
timestamp is appended to the powered window and entries 15 s old or
older are dropped; if the pruned window holds 3 or more entries the run
ends with the security-collapse reason and every remaining effect of
the item is skipped — no win even at target score, no stun, no jam, no
drain, no speed change; with fewer than 3 entries (for instance after
two powered eats followed by a gap of more than 15 s) the run does not
end, target score aside. -/
theorem c3_powered_window (now : Int) (food : Food) (s : GameState)
    (hpow : food.type ∈ POWERED_TYPES)
    (hnf : ¬ (food.type = FoodKind.fraud ∧ food.verified = false)) :
    (resolveEat now food s).poweredEatTimes =
      (s.poweredEatTimes ++ [now]).filter (fun t => now - t < 15000) ∧
    (3 ≤ ((s.poweredEatTimes ++ [now]).filter (fun t => now - t < 15000)).length →
       (resolveEat now food s).gameOverReason =
         some "Security collapse: too many powered L2s in a short window." ∧
       (resolveEat now food s).isGameOver = true ∧
       (resolveEat now food s).winScore = s.winScore ∧
       (resolveEat now food s).stunUntil = s.stunUntil ∧
       (resolveEat now food s).reverseUntil = s.reverseUntil ∧
       (resolveEat now food s).snake = s.snake ∧
       (resolveEat now food s).speed = s.speed) ∧
    (((s.poweredEatTimes ++ [now]).filter (fun t => now - t < 15000)).length < 3 →
       ¬ TARGET_SCORE ≤ s.score + foodValue food.type →
       (resolveEat now food s).isGameOver = s.isGameOver ∧
       (resolveEat now food s).gameOverReason = s.gameOverReason) := by
  rw [resolveEat, if_neg hnf, if_pos hpow]
  set w := ((s.poweredEatTimes ++ [now]).filter fun t => now - t < 15000) with hw
  by_cases h3 : 3 ≤ w.length
  · rw [if_pos h3]
    refine ⟨rfl, fun _ => ⟨rfl, rfl, rfl, rfl, rfl, rfl, rfl⟩, fun hlt _ => ?_⟩
    omega
  · rw [if_neg h3]
    refine ⟨?_, fun hge => absurd hge h3, fun _ hns => ?_⟩
    · exact (resolveEatEffects_frame now food _).2.1
    · have hno : ¬ TARGET_SCORE ≤
          ({ s with score := s.score + foodValue food.type, lastL2 := food.name,
                    poweredEatTimes := w } : GameState).score := hns
      exact ⟨(resolveEatEffects_nowin now food _ hno).1,
             (resolveEatEffects_frame now food _).2.2.1⟩

/-- Witness for C3: two powered eats at 0 ms and 1000 ms, a shield eaten
at 2000 ms: the pruned window keeps all three timestamps and the run
ends with the security-collapse reason, with no stun applied and no win
reported. -/
theorem c3_powered_window_witness :
    (resolveEat 2000 ⟨9, 10, "zkSync", "zksync", FoodKind.shield, false⟩
        { base with poweredEatTimes := [0, 1000] }).poweredEatTimes = [0, 1000, 2000] ∧
    (resolveEat 2000 ⟨9, 10, "zkSync", "zksync", FoodKind.shield, false⟩
        { base with poweredEatTimes := [0, 1000] }).gameOverReason =
      some "Security collapse: too many powered L2s in a short window." ∧
    (resolveEat 2000 ⟨9, 10, "zkSync", "zksync", FoodKind.shield, false⟩
        { base with poweredEatTimes := [0, 1000] }).winScore = none ∧
    (resolveEat 2000 ⟨9, 10, "zkSync", "zksync", FoodKind.shield, false⟩
        { base with poweredEatTimes := [0, 1000] }).stunUntil = 0 := by
  have h := c3_powered_window 2000 ⟨9, 10, "zkSync", "zksync", FoodKind.shield, false⟩
      { base with poweredEatTimes := [0, 1000] } (by simp [POWERED_TYPES]) (by simp)
  have hlen : 3 ≤ ((({ base with poweredEatTimes := [0, 1000] } : GameState).poweredEatTimes
      ++ [2000]).filter (fun t => (2000 : Int) - t < 15000)).length := by decide
  refine ⟨?_, (h.2.1 hlen).1, ?_, ?_⟩
  · rw [h.1]
    decide
  · rw [(h.2.1 hlen).2.2.1]
    rfl
  · rw [(h.2.1 hlen).2.2.2.1]
    rfl

/-- C5: when resolving an eaten item lifts the score to the target (and
the collapse check does not fire), the run ends as a win whose callback
receives exactly the final score; and `ended` is terminal — once
`isGameOver` holds, every later movement tick and wall-clock tick
returns the state completely unchanged. -/
theorem c5_win_then_frozen (now : Int) (food : Food) (s : GameState)
    (hnf : ¬ (food.type = FoodKind.fraud ∧ food.verified = false))
    (hwin : TARGET_SCORE ≤ s.score + foodValue food.type)
    (hnc : food.type ∈ POWERED_TYPES →
      ((s.poweredEatTimes ++ [now]).filter (fun t => now - t < 15000)).length < 3) :
    (resolveEat now food s).isGameOver = true ∧
    (resolveEat now food s).score = s.score + foodValue food.type ∧
    (resolveEat now food s).winScore = some ((resolveEat now food s).score) ∧
    (∀ (now2 : Int) (rng : List ℚ) (s2 : GameState), s2.isGameOver = true →
       step now2 rng s2 = (s2, rng) ∧ tickTimer s2 = s2) := by
  have hterm : ∀ (now2 : Int) (rng : List ℚ) (s2 : GameState), s2.isGameOver = true →
      step now2 rng s2 = (s2, rng) ∧ tickTimer s2 = s2 := by
    intro now2 rng s2 hg
    constructor
    · rw [step, if_pos (Or.inr hg)]
    · rw [tickTimer, if_pos (Or.inr hg)]
  rw [resolveEat, if_neg hnf]
  by_cases hpow : food.type ∈ POWERED_TYPES
  · rw [if_pos hpow]
    set w := ((s.poweredEatTimes ++ [now]).filter fun t => now - t < 15000) with hw
    rw [if_neg (by exact fun hge => absurd hge (not_le.mpr (hnc hpow)))]
    have hsc : (resolveEatEffects now food
        ({ s with score := s.score + foodValue food.type, lastL2 := food.name,
                  poweredEatTimes := w } : GameState)).score
        = s.score + foodValue food.type := resolveEatEffects_score now food _
    refine ⟨(resolveEatEffects_win now food _ hwin).1, hsc, ?_, hterm⟩
    rw [hsc]
    exact (resolveEatEffects_win now food _ hwin).2
  · rw [if_neg hpow]
    have hsc : (resolveEatEffects now food
        ({ s with score := s.score + foodValue food.type, lastL2 := food.name }
          : GameState)).score
        = s.score + foodValue food.type := resolveEatEffects_score now food _
    refine ⟨(resolveEatEffects_win now food _ hwin).1, hsc, ?_, hterm⟩
    rw [hsc]
    exact (resolveEatEffects_win now food _ hwin).2

/-- Witness for C5: at score 97, eating a normal item (worth 3) reaches
the target 100: the run ends as a win reporting exactly 100, and a tick
of the ended state is the identity. -/
theorem c5_win_then_frozen_witness :
    (resolveEat 0 ⟨0, 0, "Base", "base", FoodKind.normal, false⟩
        { base with score := 97 }).isGameOver = true ∧
    (resolveEat 0 ⟨0, 0, "Base", "base", FoodKind.normal, false⟩
        { base with score := 97 }).score = 100 ∧
    (resolveEat 0 ⟨0, 0, "Base", "base", FoodKind.normal, false⟩
        { base with score := 97 }).winScore = some 100 ∧
    step 5 [] { base with isGameOver := true } = ({ base with isGameOver := true }, []) ∧
    tickTimer { base with isGameOver := true } = { base with isGameOver := true } := by
  have h := c5_win_then_frozen 0 ⟨0, 0, "Base", "base", FoodKind.normal, false⟩
      { base with score := 97 } (by simp) (by simp [TARGET_SCORE, foodValue, base])
      (by simp [POWERED_TYPES])
  have hfr := h.2.2.2 5 [] { base with isGameOver := true } rfl
  refine ⟨h.1, h.2.1, ?_, hfr.1, hfr.2⟩
  have := h.2.2.1
  rw [h.2.1] at this
  exact this


/-- Helper: `spawnFood` only ever touches the food set. -/
theorem spawnFood_foods_only (s : GameState) (rng : List ℚ) :
    (spawnFood s rng).1 = { s with foods := (spawnFood s rng).1.foods } := by
  by_cases h1 : 5 ≤ s.foods.length
  · simp [spawnFood, h1]
  · by_cases h2 : 200 ≤ (spawnLoop s rng 0 200).2.1
    · simp [spawnFood, h1, h2]
    · simp [spawnFood, h1, h2]

/-- Helper: `spawnFood` leaves the snake unchanged. -/
theorem spawnFood_snake (s : GameState) (rng : List ℚ) :
    (spawnFood s rng).1.snake = s.snake := by
  conv_lhs => rw [spawnFood_foods_only]

/-- Helper: `resolveEat` keeps the snake at 2 or more segments. -/
theorem resolveEat_snake_ge2 (now : Int) (food : Food) (s : GameState)
    (h : 2 ≤ s.snake.length) : 2 ≤ (resolveEat now food s).snake.length := by
  rw [resolveEat]
  by_cases hf : food.type = FoodKind.fraud ∧ food.verified = false
  · rw [if_pos hf]
    exact h
  · rw [if_neg hf]
    by_cases hp : food.type ∈ POWERED_TYPES
    · rw [if_pos hp]
      by_cases h3 : 3 ≤ ((s.poweredEatTimes ++ [now]).filter
          (fun t => now - t < 15000)).length
      · rw [if_pos h3]
        exact h
      · rw [if_neg h3]
        by_cases hd : food.type = FoodKind.drain
        · rw [resolveEatEffects_snake_drain now food _ hd]
          rw [List.length_take]
          simp only
          omega
        · rw [resolveEatEffects_snake now food _ hd]
          exact h
    · rw [if_neg hp]
      by_cases hd : food.type = FoodKind.drain
      · rw [resolveEatEffects_snake_drain now food _ hd]
        rw [List.length_take]
        simp only
        omega
      · rw [resolveEatEffects_snake now food _ hd]
        exact h

/-- Helper: a movement tick keeps the snake at 2 or more segments. -/
theorem step_snake_ge2 (now : Int) (rng : List ℚ) (s : GameState)
    (h : 2 ≤ s.snake.length) : 2 ≤ ((step now rng s).1).snake.length := by
  rw [step]
  split
  · exact h
  split
  · exact h
  split
  · exact h
  dsimp only
  split
  · exact h
  split
  · exact h
  split
  · simp only [verifyFraudProof]
    rw [spawnFood_snake]
    dsimp only
    apply resolveEat_snake_ge2
    simp only [List.length_cons]
    omega
  · simp only [verifyFraudProof]
    rw [List.length_dropLast, List.length_cons]
    omega

/-- Helper: `spawnN` leaves the snake unchanged. -/
theorem spawnN_snake (n : Nat) (s : GameState) (rng : List ℚ) :
    (spawnN n s rng).1.snake = s.snake := by
  induction n generalizing s rng with
  | zero => rfl
  | succ m ih =>
    rw [spawnN]
    rw [ih]
    exact spawnFood_snake s rng

/-- C7: the snake always holds at least 2 segments: `start()` creates 3
cells and each lifecycle operation preserves the bound; a drain eat
whose collapse check does not fire removes exactly `min 3 (length - 2)`
tail cells, so it cannot cut below 2. -/
theorem c7_snake_min_length (rng : List ℚ) (s : GameState) :
    2 ≤ ((start s rng).1).snake.length ∧
    (∀ (now : Int) (rng2 : List ℚ) (s2 : GameState), 2 ≤ s2.snake.length →
       2 ≤ ((step now rng2 s2).1).snake.length) ∧
    (∀ s2 : GameState, 2 ≤ s2.snake.length → 2 ≤ (tickTimer s2).snake.length) ∧
    (∀ (now : Int) (d : Pos) (s2 : GameState), 2 ≤ s2.snake.length →
       2 ≤ (applyDirection now d s2).snake.length) ∧
    (∀ s2 : GameState, (togglePause s2).snake = s2.snake ∧
       (pause s2).snake = s2.snake ∧ (resume s2).snake = s2.snake) ∧
    (∀ (now : Int) (food : Food) (s2 : GameState), food.type = FoodKind.drain →
       ¬ 3 ≤ ((s2.poweredEatTimes ++ [now]).filter (fun t => now - t < 15000)).length →
       (resolveEat now food s2).snake.length
         = s2.snake.length - min 3 (s2.snake.length - 2)) := by
  refine ⟨?_, step_snake_ge2, ?_, ?_, ?_, ?_⟩
  · rw [start]
    rw [spawnN_snake]
    simp
  · intro s2 h2
    rw [tickTimer]
    split
    · exact h2
    · dsimp only
      split
      · exact h2
      · exact h2
  · intro now d s2 h2
    rw [applyDirection]
    split <;> split <;> exact h2
  · intro s2
    exact ⟨rfl, rfl, rfl⟩
  · intro now food s2 hd h3
    rw [resolveEat]
    rw [if_neg (by simp [hd])]
    rw [if_pos (by simp [hd, POWERED_TYPES])]
    rw [if_neg h3]
    rw [resolveEatEffects_snake_drain now food _ hd]
    rw [List.length_take]
    simp only
    omega

/-- Witness for C7: the start state has 3 segments; one plain movement
tick of the start state keeps at least 2; a drain eat on a 3-cell snake
(empty powered window) removes exactly 1 cell. -/
theorem c7_snake_min_length_witness :
    2 ≤ ((start base []).1).snake.length ∧
    2 ≤ ((step 0 [] base).1).snake.length ∧
    (resolveEat 0 ⟨8, 10, "Starknet", "starknet", FoodKind.drain, false⟩ base).snake.length
      = 2 := by
  have h := c7_snake_min_length [] base
  refine ⟨h.1, h.2.1 0 [] base (by simp [base]), ?_⟩
  have hd := h.2.2.2.2.2 0 ⟨8, 10, "Starknet", "starknet", FoodKind.drain, false⟩ base
      rfl (by decide)
  rw [hd]
  rfl

/-- Helper: `spawnFood` changes no field that reports a termination. -/
theorem spawnFood_frame (s : GameState) (rng : List ℚ) :
    (spawnFood s rng).1.score = s.score ∧
    (spawnFood s rng).1.isGameOver = s.isGameOver ∧
    (spawnFood s rng).1.gameOverReason = s.gameOverReason ∧
    (spawnFood s rng).1.gameOverScore = s.gameOverScore ∧
    (spawnFood s rng).1.winScore = s.winScore := by
  refine ⟨?_, ?_, ?_, ?_, ?_⟩ <;> conv_lhs => rw [spawnFood_foods_only]

/-- Helper: `resolveEat` on a non-drain item never touches the snake. -/
theorem resolveEat_snake_nondrain (now : Int) (food : Food) (s : GameState)
    (hd : food.type ≠ FoodKind.drain) :
    (resolveEat now food s).snake = s.snake := by
  rw [resolveEat]
  by_cases hf : food.type = FoodKind.fraud ∧ food.verified = false
  · rw [if_pos hf]
    rfl
  · rw [if_neg hf]
    by_cases hp : food.type ∈ POWERED_TYPES
    · rw [if_pos hp]
      by_cases h3 : 3 ≤ ((s.poweredEatTimes ++ [now]).filter
          (fun t => now - t < 15000)).length
      · rw [if_pos h3]
        rfl
      · rw [if_neg h3]
        rw [resolveEatEffects_snake now food _ hd]
    · rw [if_neg hp]
      rw [resolveEatEffects_snake now food _ hd]

/-- C10: when `resolveEat` ends the run mid-tick, the rest of the tick
still executes: the eaten item is removed and a replacement spawn is
attempted (`postEatState`), the fraud-proximity scan still runs over
the resulting food set, the grown snake keeps its new head (the tail is
not dropped, and without a drain the snake is exactly `newHead`
prepended), and the termination report — reason and score — is exactly
the one captured by `resolveEat`, unaffected by those later same-tick
mutations. -/
theorem c10_midtick_termination (now : Int) (rng : List ℚ) (s : GameState)
    (food : Food)
    (hp : s.isPaused = false) (hg : s.isGameOver = false)
    (hstun : s.stunUntil ≤ now) (hne : ¬ s.snake.length = 0)
    (hwall : ¬ ((newHeadOf s).x < 0 ∨ GRID_SIZE ≤ (newHeadOf s).x ∨
        (newHeadOf s).y < 0 ∨ GRID_SIZE ≤ (newHeadOf s).y))
    (hself : s.snake.any
        (fun seg => seg.x = (newHeadOf s).x ∧ seg.y = (newHeadOf s).y) = false)
    (hfind : s.foods.find?
        (fun f => f.x = (newHeadOf s).x ∧ f.y = (newHeadOf s).y) = some food)
    (hterm : (eatState now s food).isGameOver = true) :
    (step now rng s).1 = verifyFraudProof (newHeadOf s) (postEatState now rng s food).1 ∧
    (step now rng s).2 = (postEatState now rng s food).2 ∧
    (step now rng s).1.isGameOver = true ∧
    (step now rng s).1.snake = (eatState now s food).snake ∧
    (food.type ≠ FoodKind.drain →
       (step now rng s).1.snake = newHeadOf s :: s.snake) ∧
    (step now rng s).1.score = (eatState now s food).score ∧
    (step now rng s).1.gameOverReason = (eatState now s food).gameOverReason ∧
    (step now rng s).1.gameOverScore = (eatState now s food).gameOverScore ∧
    (step now rng s).1.winScore = (eatState now s food).winScore ∧
    (step now rng s).1.foods =
      ((postEatState now rng s food).1.foods).map (verifyOne (newHeadOf s)) := by
  simp only [newHeadOf] at hwall hself hfind
  have hstep : step now rng s =
      (verifyFraudProof (newHeadOf s) (postEatState now rng s food).1,
       (postEatState now rng s food).2) := by
    rw [step]
    rw [if_neg (by simp [hp, hg])]
    rw [if_neg (not_lt.mpr hstun)]
    rw [if_neg hne]
    dsimp only
    rw [if_neg hwall]
    rw [if_neg (by rw [hself]; exact Bool.false_ne_true)]
    rw [hfind]
    dsimp only
    rfl
  rw [hstep]
  have hfr := spawnFood_frame
    { eatState now s food with
      foods := (eatState now s food).foods.eraseIdx
        (s.foods.findIdx (fun f => f.x = (newHeadOf s).x ∧ f.y = (newHeadOf s).y)) } rng
  refine ⟨rfl, rfl, ?_, ?_, ?_, ?_, ?_, ?_, ?_, rfl⟩
  · show (postEatState now rng s food).1.isGameOver = true
    rw [postEatState]
    rw [hfr.2.1]
    exact hterm
  · show (postEatState now rng s food).1.snake = (eatState now s food).snake
    rw [postEatState]
    rw [spawnFood_snake]
  · intro hd
    show (postEatState now rng s food).1.snake = newHeadOf s :: s.snake
    rw [postEatState]
    rw [spawnFood_snake]
    show (eatState now s food).snake = newHeadOf s :: s.snake
    rw [eatState]
    rw [resolveEat_snake_nondrain now food _ hd]
  · show (postEatState now rng s food).1.score = (eatState now s food).score
    rw [postEatState]
    rw [hfr.1]
  · show (postEatState now rng s food).1.gameOverReason
        = (eatState now s food).gameOverReason
    rw [postEatState]
    rw [hfr.2.2.1]
  · show (postEatState now rng s food).1.gameOverScore
        = (eatState now s food).gameOverScore
    rw [postEatState]
    rw [hfr.2.2.2.1]
  · show (postEatState now rng s food).1.winScore = (eatState now s food).winScore
    rw [postEatState]
    rw [hfr.2.2.2.2]



/-- Witness for C10: stepping the start state onto an unverified fraud
item at (9, 10) with draw stream `[]` ends the run (score 0, fraud
reason) yet still removes the eaten item, spawns a replacement
(Arbitrum at (0, 0)) and keeps the grown 4-cell snake. -/
theorem c10_midtick_termination_witness :
    (step 0 [] { base with
        foods := [⟨9, 10, "Arbitrum", "arbitrum", FoodKind.fraud, false⟩] }).1.isGameOver
      = true ∧
    (step 0 [] { base with
        foods := [⟨9, 10, "Arbitrum", "arbitrum", FoodKind.fraud, false⟩] }).1.gameOverReason
      = some "A fraud-proof L2 was eaten before verification." ∧
    (step 0 [] { base with
        foods := [⟨9, 10, "Arbitrum", "arbitrum", FoodKind.fraud, false⟩] }).1.gameOverScore
      = some 0 ∧
    (step 0 [] { base with
        foods := [⟨9, 10, "Arbitrum", "arbitrum", FoodKind.fraud, false⟩] }).1.snake
      = [⟨9, 10⟩, ⟨8, 10⟩, ⟨7, 10⟩, ⟨6, 10⟩] ∧
    (step 0 [] { base with
        foods := [⟨9, 10, "Arbitrum", "arbitrum", FoodKind.fraud, false⟩] }).1.foods
      = [⟨0, 0, "Arbitrum", "arbitrum", FoodKind.fraud, false⟩] := by
  have h := c10_midtick_termination 0 []
      { base with foods := [⟨9, 10, "Arbitrum", "arbitrum", FoodKind.fraud, false⟩] }
      ⟨9, 10, "Arbitrum", "arbitrum", FoodKind.fraud, false⟩
      rfl rfl (by decide) (by decide) (by decide) (by decide) rfl rfl
  have heat : eatState 0
      { base with foods := [⟨9, 10, "Arbitrum", "arbitrum", FoodKind.fraud, false⟩] }
      ⟨9, 10, "Arbitrum", "arbitrum", FoodKind.fraud, false⟩ = c10WitnessEatState := rfl
  have hrand20 : randNat 0 20 = 0 := by
    rw [randNat]
    norm_num
  have hrand7 : randNat 0 7 = 0 := by
    rw [randNat]
    norm_num
  have hpool : l2Pool 0 0 = L2S := by
    simp only [l2Pool]
    rw [if_pos (by norm_num)]
  have hrl2 : randomL2 0 0 0 = ⟨"Arbitrum", "arbitrum", "arbitrum", FoodKind.fraud⟩ := by
    simp only [randomL2]
    rw [hpool]
    show L2S.getD (randNat 0 7) ⟨"", "", "", .normal⟩ = _
    rw [hrand7]
    rfl
  have hloop : spawnLoop { c10WitnessEatState with foods := [] } [] 0 200
      = (⟨0, 0⟩, 1, []) := by
    rw [show (200 : Nat) = 199 + 1 from rfl]
    rw [spawnLoop]
    simp only [List.headD, List.drop]
    rw [hrand20]
    rw [if_neg (by decide)]
    simp
  have hspawn : spawnFood { c10WitnessEatState with foods := [] } []
      = ({ c10WitnessEatState with
            foods := [⟨0, 0, "Arbitrum", "arbitrum", FoodKind.fraud, false⟩] }, []) := by
    rw [spawnFood]
    rw [if_neg (by decide)]
    rw [hloop]
    rw [if_neg (by decide)]
    simp only [List.headD, List.drop]
    rw [show ({ c10WitnessEatState with foods := [] } : GameState).score = 0 from rfl]
    rw [hrl2]
    rfl
  have hpost : postEatState 0 []
      { base with foods := [⟨9, 10, "Arbitrum", "arbitrum", FoodKind.fraud, false⟩] }
      ⟨9, 10, "Arbitrum", "arbitrum", FoodKind.fraud, false⟩
      = ({ c10WitnessEatState with
            foods := [⟨0, 0, "Arbitrum", "arbitrum", FoodKind.fraud, false⟩] }, []) := by
    rw [postEatState, heat]
    show spawnFood { c10WitnessEatState with foods := [] } [] = _
    exact hspawn
  refine ⟨h.2.2.1, ?_, ?_, ?_, ?_⟩
  · rw [h.2.2.2.2.2.2.1, heat]
    rfl
  · rw [h.2.2.2.2.2.2.2.1, heat]
    rfl
  · rw [h.2.2.2.1, heat]
    rfl
  · rw [h.2.2.2.2.2.2.2.2.2, hpost]
    rfl

end EthSnake
